import Mathlib

/-!
Verification development for the VortexL2 repository.

Shallow embedding of the decision logic of `dns_manager.py`, the socat
port-forward manager `socat_manager.py`, and the mode-switch branches of
`main.py`.  External effects (shell commands, the filesystem, live
sockets) are represented by explicit oracle records passed to the
embedded functions.  Latencies and scores are modelled as rationals.
-/

namespace VortexL2

/-! ### Rounding

Python's `round(x, 1)` rounds to one decimal place with ties going to the
even least significant digit (banker's rounding).  We model it on `ℚ`.
-/

/-- Round a rational to the nearest integer, ties to even. -/
def roundHalfEven (q : ℚ) : ℤ :=
  let f := ⌊q⌋
  let frac := q - f
  if frac < 1 / 2 then f
  else if 1 / 2 < frac then f + 1
  else if f % 2 = 0 then f else f + 1

/-- Python `round(x, 1)`: one decimal place, ties to even. -/
def pyRound1 (q : ℚ) : ℚ :=
  (roundHalfEven (q * 10) : ℚ) / 10

/-! ### String helpers

Python's `str.strip()` and single-character `str.split(c)` are embedded
as executable functions on the character list of the string.
-/

/-- Python `s.strip()`: drop whitespace from both ends. -/
def pyStrip (s : String) : String :=
  String.mk
    (((s.toList.dropWhile Char.isWhitespace).reverse.dropWhile
        Char.isWhitespace).reverse)

/-- Recursive core of `pySplit`: `acc` holds the current piece reversed. -/
def pySplitAux (c : Char) : List Char → List Char → List String
  | [], acc => [String.mk acc.reverse]
  | d :: rest, acc =>
    if d = c then String.mk acc.reverse :: pySplitAux c rest []
    else pySplitAux c rest (d :: acc)

/-- Python `s.split(c)` for a one-character separator `c`. -/
def pySplit (s : String) (c : Char) : List String :=
  pySplitAux c s.toList []

/-! ### `dns_manager.py`: constants and candidate normalization -/

def TEST_DOMAIN_1 : String := "chatgpt.com"

def TEST_DOMAIN_2 : String := "one.one.one.one"

/-- Repetition budget of `nslookup_latency_ms` (`REPEAT` in the source). -/
def REPEAT : Nat := 2

/-- Recursive core of `normalize_dns_list`: `seen` is the set of addresses
already kept, mirroring the source's `seen` set and `out` list. -/
def normAux : List (String × String) → List String → List (String × String)
  | [], _ => []
  | (nm, ip) :: rest, seen =>
    let ipt := pyStrip ip
    if ipt = ("0.0.0.0") ∨ ipt = ("") then normAux rest seen
    else if ipt ∈ seen then normAux rest seen
    else (pyStrip nm, ipt) :: normAux rest (ipt :: seen)

/-- `normalize_dns_list(raw)`: drop `0.0.0.0` and empty addresses, keep the
first occurrence of each address, trimming names and addresses. -/
def normalize_dns_list (raw : List (String × String)) : List (String × String) :=
  normAux raw []

/-! ### `dns_manager.py`: probing and scoring

A probe attempt either succeeds with an elapsed wall-clock time in
milliseconds, or fails (timeout, non-zero exit, or any other exception:
the source swallows all of these identically).
-/

inductive Attempt where
  | ok (ms : ℚ)
  | failed
deriving DecidableEq, Repr

/-- The elapsed times of the successful attempts among the first `REPEAT`
outcomes of the attempt oracle. -/
def successfulAttempts (attempt : Nat → Attempt) : List ℚ :=
  (List.range REPEAT).filterMap fun i =>
    match attempt i with
    | Attempt.ok ms => some ms
    | Attempt.failed => none

/-- `nslookup_latency_ms(domain, dns_ip)`: run `REPEAT` attempts, sum the
elapsed times and count the successes, return `none` when no attempt
succeeded and otherwise the mean over the successes rounded to one
decimal place.  The attempt oracle stands for the i-th `nslookup` run. -/
def nslookup_latency_ms (attempt : Nat → Attempt) : Option ℚ :=
  let r := (List.range REPEAT).foldl
    (fun (acc : ℚ × Nat) i =>
      match attempt i with
      | Attempt.ok ms => (acc.1 + ms, acc.2 + 1)
      | Attempt.failed => acc)
    (0, 0)
  if r.2 = 0 then none else some (pyRound1 (r.1 / (r.2 : ℚ)))

/-- `score_dns(dns_ip)` together with the list of domains it probed, in
order.  `probe d` stands for `nslookup_latency_ms(d, dns_ip)`. -/
def score_dns_t (probe : String → Option ℚ) :
    Option (ℚ × ℚ × ℚ) × List String :=
  match probe TEST_DOMAIN_1 with
  | none => (none, [TEST_DOMAIN_1])
  | some lat1 =>
    match probe TEST_DOMAIN_2 with
    | none => (none, [TEST_DOMAIN_1, TEST_DOMAIN_2])
    | some lat2 =>
      (some (pyRound1 ((lat1 + lat2) / 2), lat1, lat2),
       [TEST_DOMAIN_1, TEST_DOMAIN_2])

/-- `score_dns(dns_ip)`: `(score, lat1, lat2)` when both test domains
resolve, `none` otherwise. -/
def score_dns (probe : String → Option ℚ) : Option (ℚ × ℚ × ℚ) :=
  (score_dns_t probe).1

/-! ### `dns_manager.py`: scan, ranking and selection -/

/-- One entry of the `results` list built by `scan_and_apply_best_dns`:
`(score, name, ip, lat1, lat2)`. -/
structure ScoreEntry where
  score : ℚ
  label : String
  ip : String
  lat1 : ℚ
  lat2 : ℚ
deriving DecidableEq, Repr

/-- The `results` list of `scan_and_apply_best_dns`: every candidate of the
normalized list that `score_dns` accepts, in catalog order.  `probe2 d ip`
stands for `nslookup_latency_ms(d, ip)`. -/
def scan_results (probe2 : String → String → Option ℚ)
    (lst : List (String × String)) : List ScoreEntry :=
  lst.filterMap fun p =>
    (score_dns (fun d => probe2 d p.2)).map fun s =>
      ⟨s.1, p.1, p.2, s.2.1, s.2.2⟩

/-- `sorted(results, key=lambda x: x[0])[0]` as an `Option`: Python's sort
is stable, so we embed it as a stable sort on the score and take the
head. -/
def pickBest (results : List ScoreEntry) : Option ScoreEntry :=
  (List.insertionSort (fun a b => a.score ≤ b.score) results).head?

/-- Specification-side helper: the earliest element attaining the minimum
score (later elements replace the current best only on strictly smaller
score). -/
def firstMin : List ScoreEntry → Option ScoreEntry
  | [] => none
  | e :: rest =>
    match firstMin rest with
    | none => some e
    | some b => if b.score < e.score then some b else some e

/-! ### `dns_manager.py`: applying a DNS address -/

/-- Oracle for the external world seen by `apply_dns`. -/
structure ApplyEnv where
  has_resolvectl : Bool
  resolved_active : Bool
  resolvectl_dns_ok : Bool
  resolvectl_stderr : String
  iface : String
  has_nmcli : Bool
  nmcli_active_line : String
  nmcli_modify_ok : Bool
  resolv_write_ok : Bool
  write_err : String
deriving DecidableEq, Repr

/-- The three mechanisms `apply_dns` can attempt, in source order. -/
inductive Mech where
  | resolvectl
  | nmcli
  | resolvconf
deriving DecidableEq, Repr

/-- The final `/etc/resolv.conf` fallback of `apply_dns` (the tail of the
function body after both tool branches fall through).  `pre` is the trace
of mechanisms already attempted. -/
def apply_dns_fallback (env : ApplyEnv) (dns_ip : String) (pre : List Mech) :
    (Bool × String) × List Mech :=
  if env.resolv_write_ok then
    ((true, "Applied by writing /etc/resolv.conf: DNS=" ++ dns_ip),
     pre ++ [Mech.resolvconf])
  else
    ((false, "Failed to apply DNS: " ++ env.write_err),
     pre ++ [Mech.resolvconf])

/-- `apply_dns(dns_ip)`: try resolvectl (when present and
systemd-resolved is active), then nmcli (when present and an active
connection exists), then overwrite `/etc/resolv.conf`.  Returns the
`(success, message)` pair of the source plus the trace of mechanisms
whose apply command was actually issued. -/
def apply_dns (env : ApplyEnv) (dns_ip : String) :
    (Bool × String) × List Mech :=
  if env.has_resolvectl ∧ env.resolved_active then
    if env.resolvectl_dns_ok then
      ((true, "Applied via systemd-resolved on " ++ env.iface ++ ": DNS=" ++ dns_ip),
       [Mech.resolvectl])
    else
      ((false, "resolvectl dns failed: " ++ env.resolvectl_stderr),
       [Mech.resolvectl])
  else if env.has_nmcli then
    let line := pyStrip env.nmcli_active_line
    if line ≠ ("") then
      let conn := (pySplit line (':')).headD ("")
      if env.nmcli_modify_ok then
        ((true, "Applied via NetworkManager: " ++ conn ++ " DNS=" ++ dns_ip),
         [Mech.nmcli])
      else
        apply_dns_fallback env dns_ip [Mech.nmcli]
    else
      apply_dns_fallback env dns_ip []
  else
    apply_dns_fallback env dns_ip []

/-- `scan_and_apply_best_dns`: fail when `nslookup` is missing or the
ranked set is empty; otherwise select the best entry of the stable sort
and apply it.  Returns the success flag and the selected entry
(`best_info` in the source). -/
def scan_and_apply_best_dns (has_nslookup : Bool)
    (probe2 : String → String → Option ℚ) (env : ApplyEnv)
    (lst : List (String × String)) : Bool × Option ScoreEntry :=
  if ¬has_nslookup then (false, none)
  else
    match pickBest (scan_results probe2 lst) with
    | none => (false, none)
    | some best => ((apply_dns env best.ip).1.1, some best)

/-! ### `main.py`: forward-mode switching

The option-6 branches of `handle_forwards_menu` and
`handle_easytier_forwards_menu` are embedded as functions from the menu
inputs to the ordered list of external actions they issue.
-/

/-- The persisted forward mode (`"none"` / `"haproxy"` / `"socat"`). -/
inductive FwdMode where
  | disabled
  | haproxy
  | socat
deriving DecidableEq, Repr

/-- External actions issued while switching forward modes. -/
inductive Action where
  | stopHaproxyService
  | stopAllSocat
  | setMode (m : FwdMode)
  | startHaproxyService
  | restartDaemonService
deriving DecidableEq, Repr

/-- The sub-menu translation of `ui.show_forward_mode_menu` answers:
`"1"` → none, `"2"` → haproxy, `"3"` → socat, anything else → no mode. -/
def forward_mode_choice (mode_choice : String) : Option FwdMode :=
  if mode_choice = ("1") then some FwdMode.disabled
  else if mode_choice = ("2") then some FwdMode.haproxy
  else if mode_choice = ("3") then some FwdMode.socat
  else none

/-- `restart_forward_daemon()`: when the (just persisted) mode is haproxy,
start the haproxy service, then restart the forward daemon. -/
def restart_forward_daemon_actions (mode : FwdMode) : List Action :=
  (if mode = FwdMode.haproxy then [Action.startHaproxyService] else [])
    ++ [Action.restartDaemonService]

/-- Option 6 of `handle_forwards_menu` (the L2TPv3 forwards menu): on a
real mode change, stop the driver of the current mode, persist the new
mode, then either optionally restart the daemon (new mode ≠ none,
`confirm_start` is the operator's answer) or stop haproxy again (new
mode = none). -/
def forwards_menu_mode_switch (current : FwdMode) (mode_choice : String)
    (confirm_start : Bool) : List Action :=
  match forward_mode_choice mode_choice with
  | none => []
  | some nm =>
    if nm ≠ current then
      (if current = FwdMode.haproxy then [Action.stopHaproxyService]
       else if current = FwdMode.socat then [Action.stopAllSocat]
       else [])
      ++ [Action.setMode nm]
      ++ (if nm ≠ FwdMode.disabled then
            (if confirm_start then restart_forward_daemon_actions nm else [])
          else [Action.stopHaproxyService])
    else []

/-- Option 6 of `handle_easytier_forwards_menu`: on a real mode change,
persist the new mode and (new mode ≠ none) restart the daemon.  The
source issues no stop action for the old mode's driver here. -/
def easytier_forwards_menu_mode_switch (current : FwdMode)
    (mode_choice : String) : List Action :=
  match forward_mode_choice mode_choice with
  | none => []
  | some nm =>
    if nm ≠ current then
      [Action.setMode nm]
        ++ (if nm ≠ FwdMode.disabled then restart_forward_daemon_actions nm
            else [])
    else []

/-! ### `socat_manager.py`: tunnel configuration and environment -/

/-- The slice of a tunnel configuration object that `SocatManager` uses:
`remote_forward_ip` (empty string for "not configured") and the
`forwarded_ports` list. -/
structure TunnelConfig where
  remote_forward_ip : String
  forwarded_ports : List Int
deriving DecidableEq, Repr

/-- Modelled from the spec: `add_port` of the tunnel-config class (in
`config.py`, not part of the sources at hand) adds the port to the
tunnel's forward set; the spec's invariant keeps each port at most once
and `create_forward` only calls it on absent ports, so it appends. -/
def TunnelConfig.add_port (cfg : TunnelConfig) (port : Int) : TunnelConfig :=
  ⟨cfg.remote_forward_ip, cfg.forwarded_ports ++ [port]⟩

/-- Modelled from the spec: `remove_port` of the tunnel-config class (in
`config.py`, not part of the sources at hand) removes the port from the
tunnel's forward set. -/
def TunnelConfig.remove_port (cfg : TunnelConfig) (port : Int) : TunnelConfig :=
  ⟨cfg.remote_forward_ip, cfg.forwarded_ports.filter (fun p => p ≠ port)⟩

/-- Oracle for the host state seen by `SocatManager`:
`listening p` is `_is_port_listening(p)` before any action,
`lsof_pid p` is the first pid `lsof` reports for the port (the
`_get_port_process` probe), `ps_comm pid` the process name `ps` reports,
`spawn_ok`/`spawn_err` the outcome of launching the background socat,
`listening_after_start p` the listening check after the socat spawn, and
`listening_after_stop p` the listening check after the pkill. -/
structure SocatEnv where
  socat_installed : Bool
  listening : Int → Bool
  lsof_pid : Int → Option String
  ps_comm : String → String
  spawn_ok : Bool
  spawn_err : String
  listening_after_start : Int → Bool
  listening_after_stop : Int → Bool

/-- `_get_port_process(port)`: the owning process formatted as
`"comm (PID: pid)"` when `lsof` finds one. -/
def get_port_process (env : SocatEnv) (port : Int) : Option String :=
  match env.lsof_pid port with
  | none => none
  | some pid => some (env.ps_comm pid ++ " (PID: " ++ pid ++ ")")

/-- `start_forward(local_port, remote_ip, remote_port)`. -/
def start_forward (env : SocatEnv) (local_port : Int) (remote_ip : String)
    (remote_port : Int) : Bool × String :=
  if ¬env.socat_installed then
    (false, "socat is not installed. Install with: apt-get install socat")
  else if env.listening local_port then
    (false, "Port " ++ toString local_port ++ " is already in use by: "
      ++ ((get_port_process env local_port).getD ("unknown process")))
  else if ¬env.spawn_ok then
    (false, "Failed to start socat: " ++ env.spawn_err)
  else if env.listening_after_start local_port then
    (true, "Socat forward started: " ++ toString local_port ++ " → "
      ++ remote_ip ++ ":" ++ toString remote_port)
  else
    (false, "Socat process did not start successfully (check logs)")

/-- `stop_forward(local_port)`. -/
def stop_forward (env : SocatEnv) (local_port : Int) : Bool × String :=
  if ¬env.listening local_port then
    (true, "Port " ++ toString local_port ++ " is not being forwarded")
  else if ¬env.listening_after_stop local_port then
    (true, "Stopped socat forward on port " ++ toString local_port)
  else
    (false, "Failed to stop socat on port " ++ toString local_port)

/-- `create_forward(port)`: interface-compatibility wrapper; returns the
`(success, message)` pair and the configuration state after the call. -/
def create_forward (env : SocatEnv) (cfg? : Option TunnelConfig)
    (port : Int) : (Bool × String) × Option TunnelConfig :=
  match cfg? with
  | none => ((false, "No tunnel configuration provided"), none)
  | some cfg =>
    if port ∈ cfg.forwarded_ports then
      ((false, "Port " ++ toString port ++ " already in forwarded list"),
       some cfg)
    else if cfg.remote_forward_ip = ("") then
      ((false, "Remote forward IP not configured for this tunnel"), some cfg)
    else
      let r := start_forward env port cfg.remote_forward_ip port
      if ¬r.1 then ((false, r.2), some cfg)
      else
        ((true, "Port forward for " ++ toString port ++ " started (socat)"),
         some (cfg.add_port port))

/-- `remove_forward(port)`: interface-compatibility wrapper; returns the
`(success, message)` pair and the configuration state after the call. -/
def remove_forward (env : SocatEnv) (cfg? : Option TunnelConfig)
    (port : Int) : (Bool × String) × Option TunnelConfig :=
  match cfg? with
  | none => ((false, "No tunnel configuration provided"), none)
  | some cfg =>
    if port ∉ cfg.forwarded_ports then
      ((false, "Port " ++ toString port ++ " is not in forwarded list"),
       some cfg)
    else
      let r := stop_forward env port
      if ¬r.1 then ((false, r.2), some cfg)
      else
        ((true, "Port forward " ++ toString port ++ " removed"),
         some (cfg.remove_port port))

/-! ### `socat_manager.py`: ports-string parsing and bulk helpers -/

/-- Python `int(s)` restricted to the forms the ports strings use:
optional surrounding whitespace, an optional sign, then decimal digits
(digit-group underscores are not modelled). -/
def pyInt? (s : String) : Option Int :=
  let cs := (pyStrip s).toList
  let signed : Int × List Char :=
    match cs with
    | c :: rest =>
      if c = ('-') then (-1, rest)
      else if c = ('+') then (1, rest) else (1, cs)
    | [] => (1, [])
  if signed.2 = [] ∨ ¬signed.2.all Char.isDigit then none
  else
    some (signed.1 *
      (signed.2.foldl (fun acc d => acc * 10 + (d.toNat - 48)) 0 : ℕ))

/-- Python `range(s, e + 1)` as a list of integers. -/
def rangeIncl (s e : Int) : List Int :=
  (List.range (e + 1 - s).toNat).map fun i => s + i

/-- One comma-separated piece of the ports string, already stripped:
a range `a-b` (exactly one dash, both sides integers) or a single
integer.  `none` models the `ValueError` path. -/
def parsePart (part : String) : Option (List Int) :=
  if ('-') ∈ part.toList then
    match pySplit part ('-') with
    | [a, b] =>
      match pyInt? a, pyInt? b with
      | some s, some e => some (rangeIncl s e)
      | _, _ => none
    | _ => none
  else
    (pyInt? part).map fun n => [n]

/-- The ports-string parsing loop shared by `add_multiple_forwards` and
`remove_multiple_forwards`. -/
def parse_ports (s : String) : Option (List Int) :=
  ((pySplit s (',')).mapM fun part => parsePart (pyStrip part)).map
    List.flatten

/-- The per-port loop of `add_multiple_forwards`: thread the
configuration through `create_forward`, collecting every message. -/
def addLoop (env : SocatEnv) : List Int → Option TunnelConfig →
    List String × Option TunnelConfig
  | [], cfg? => ([], cfg?)
  | port :: rest, cfg? =>
    let r := create_forward env cfg? port
    let t := addLoop env rest r.2
    (r.1.2 :: t.1, t.2)

/-- `add_multiple_forwards(ports_str)`: parse failure is the only overall
failure; otherwise every port is attempted and the joined messages are
returned with overall success. -/
def add_multiple_forwards (env : SocatEnv) (cfg? : Option TunnelConfig)
    (ports_str : String) : (Bool × String) × Option TunnelConfig :=
  match parse_ports ports_str with
  | none => ((false, "Invalid port format"), cfg?)
  | some ports =>
    let t := addLoop env ports cfg?
    ((true, String.intercalate ("\n") t.1), t.2)

/-- The per-port loop of `remove_multiple_forwards`: ports absent from
the current configuration are skipped silently; reading
`self.config.forwarded_ports` with no configuration raises, modelled by
`Except.error`. -/
def removeLoop (env : SocatEnv) : List Int → Option TunnelConfig →
    Except String (List String × Option TunnelConfig)
  | [], cfg? => Except.ok ([], cfg?)
  | port :: rest, cfg? =>
    match cfg? with
    | none =>
      Except.error ("TypeError: argument of type NoneType is not iterable")
    | some cfg =>
      if port ∈ cfg.forwarded_ports then
        let r := remove_forward env (some cfg) port
        match removeLoop env rest r.2 with
        | Except.error e => Except.error e
        | Except.ok t => Except.ok (r.1.2 :: t.1, t.2)
      else
        removeLoop env rest (some cfg)

/-- `remove_multiple_forwards(ports_str)`: parse failure is the only
overall failure outcome; otherwise present ports are removed, absent
ports skipped, and the joined messages returned with overall success. -/
def remove_multiple_forwards (env : SocatEnv) (cfg? : Option TunnelConfig)
    (ports_str : String) :
    Except String ((Bool × String) × Option TunnelConfig) :=
  match parse_ports ports_str with
  | none => Except.ok ((false, "Invalid port format"), cfg?)
  | some ports =>
    match removeLoop env ports cfg? with
    | Except.error e => Except.error e
    | Except.ok t =>
      Except.ok ((true, String.intercalate ("\n") t.1), t.2)

/-! ## Theorems -/

/-! ### Probe (`nslookup_latency_ms`) -/

/-- The accumulator loop of `nslookup_latency_ms` computes the sum and
the count of the successful attempts. -/
theorem nslookup_fold_eq (attempt : Nat → Attempt) (l : List Nat) :
    ∀ (a : ℚ) (k : Nat),
      l.foldl
        (fun (acc : ℚ × Nat) i =>
          match attempt i with
          | Attempt.ok ms => (acc.1 + ms, acc.2 + 1)
          | Attempt.failed => acc) (a, k)
      = (a + (l.filterMap fun i =>
            match attempt i with
            | Attempt.ok ms => some ms
            | Attempt.failed => none).sum,
         k + (l.filterMap fun i =>
            match attempt i with
            | Attempt.ok ms => some ms
            | Attempt.failed => none).length) := by
  induction l with
  | nil => intro a k; simp
  | cons i rest ih =>
    intro a k
    cases h : attempt i with
    | ok ms =>
      simp only [List.foldl_cons, List.filterMap_cons, h, List.sum_cons,
        List.length_cons, ih, Prod.mk.injEq]
      constructor
      · rw [add_assoc]
      · omega
    | failed =>
      simp only [List.foldl_cons, List.filterMap_cons, h, ih]

/-- Claim C7: the probe performs `REPEAT = 2` resolution attempts,
returns the mean elapsed time over only the successful attempts rounded
to one decimal place, returns `none` when zero attempts succeeded, and
is a total function of the attempt outcomes (timeouts and non-zero exits
are absorbed as failed attempts, never propagated). -/
theorem c7_nslookup_latency_spec (attempt : Nat → Attempt) :
    REPEAT = 2 ∧
    nslookup_latency_ms attempt =
      (if (successfulAttempts attempt).length = 0 then none
       else some (pyRound1 ((successfulAttempts attempt).sum /
         ((successfulAttempts attempt).length : ℚ)))) := by
  refine ⟨rfl, ?_⟩
  unfold nslookup_latency_ms successfulAttempts
  rw [nslookup_fold_eq]
  simp

/-! ### Scorer short-circuit (`score_dns`) -/

/-- Claim C3: a candidate whose probe of the primary validation domain
returns the absence-marker is not scored (and is absent from the ranked
set), and the probe of the secondary domain is never issued for it; a
score is produced only when both domains succeed and equals the mean of
both latencies rounded to one decimal place. -/
theorem c3_score_dns_short_circuit (probe2 : String → String → Option ℚ)
    (ip : String) (lst : List (String × String)) :
    (probe2 TEST_DOMAIN_1 ip = none →
      score_dns (fun d => probe2 d ip) = none ∧
      TEST_DOMAIN_2 ∉ (score_dns_t (fun d => probe2 d ip)).2 ∧
      ∀ e ∈ scan_results probe2 lst, e.ip ≠ ip) ∧
    (∀ s l1 l2, score_dns (fun d => probe2 d ip) = some (s, l1, l2) →
      probe2 TEST_DOMAIN_1 ip = some l1 ∧ probe2 TEST_DOMAIN_2 ip = some l2 ∧
      s = pyRound1 ((l1 + l2) / 2)) := by
  constructor
  · intro h1
    refine ⟨by simp [score_dns, score_dns_t, h1], by simp [score_dns_t, h1]; decide, ?_⟩
    intro e he hip
    rw [scan_results, List.mem_filterMap] at he
    obtain ⟨p, hp, hfe⟩ := he
    rw [Option.map_eq_some'] at hfe
    obtain ⟨s, hs, hse⟩ := hfe
    have hip2 : p.2 = ip := by rw [← hse] at hip; exact hip
    rw [hip2] at hs
    rw [score_dns, score_dns_t, h1] at hs
    exact Option.noConfusion hs
  · intro s l1 l2 hs
    cases h1 : probe2 TEST_DOMAIN_1 ip with
    | none => rw [score_dns, score_dns_t, h1] at hs; exact Option.noConfusion hs
    | some a =>
      cases h2 : probe2 TEST_DOMAIN_2 ip with
      | none =>
        rw [score_dns, score_dns_t, h1, h2] at hs
        exact Option.noConfusion hs
      | some b =>
        rw [score_dns, score_dns_t, h1, h2] at hs
        simp only [Option.some.injEq, Prod.mk.injEq] at hs
        obtain ⟨hsc, hl1, hl2⟩ := hs
        subst hl1; subst hl2
        exact ⟨rfl, rfl, hsc.symm⟩

/-- Witness for C3: a dead candidate (primary probe fails) is dropped
without probing the secondary domain, and a live candidate's score is
the rounded mean of its two latencies. -/
theorem c3_score_dns_short_circuit_witness :
    (score_dns (fun d => (fun _ _ => (none : Option ℚ)) d ("10.0.0.9")) = none ∧
      TEST_DOMAIN_2 ∉
        (score_dns_t (fun d => (fun _ _ => (none : Option ℚ)) d ("10.0.0.9"))).2 ∧
      ∀ e ∈ scan_results (fun _ _ => (none : Option ℚ)) [(("X"), ("10.0.0.9"))],
        e.ip ≠ ("10.0.0.9")) ∧
    ((fun d _ => if d = TEST_DOMAIN_1 then some (10 : ℚ) else some 20)
        TEST_DOMAIN_1 ("1.1.1.1") = some 10 ∧
      (fun d _ => if d = TEST_DOMAIN_1 then some (10 : ℚ) else some 20)
        TEST_DOMAIN_2 ("1.1.1.1") = some 20 ∧
      (15 : ℚ) = pyRound1 ((10 + 20) / 2)) := by
  constructor
  · exact (c3_score_dns_short_circuit (fun _ _ => none) ("10.0.0.9")
      [(("X"), ("10.0.0.9"))]).1 rfl
  · refine (c3_score_dns_short_circuit
      (fun d _ => if d = TEST_DOMAIN_1 then some 10 else some 20)
      ("1.1.1.1") []).2 15 10 20 ?_
    have h : ¬(TEST_DOMAIN_2 = TEST_DOMAIN_1) := by decide
    norm_num [score_dns, score_dns_t, pyRound1, roundHalfEven, h]

/-! ### Candidate normalization (`normalize_dns_list`) -/

/-- Every entry produced by `normAux` has an address outside `seen`,
is neither the unspecified address nor empty, and is the stripped first
occurrence of its address in the remaining raw list. -/
theorem normAux_mem_spec (raw : List (String × String)) :
    ∀ (seen : List String), ∀ p ∈ normAux raw seen,
      p.2 ∉ seen ∧ p.2 ≠ ("0.0.0.0") ∧ p.2 ≠ ("") ∧
      ∃ q, raw.find? (fun r => pyStrip r.2 == p.2) = some q ∧
        p = (pyStrip q.1, pyStrip q.2) := by
  induction raw with
  | nil => intro seen p hp; simp [normAux] at hp
  | cons hd rest ih =>
    intro seen p hp
    obtain ⟨nm, ip⟩ := hd
    simp only [normAux] at hp
    by_cases hbad : pyStrip ip = ("0.0.0.0") ∨ pyStrip ip = ("")
    · rw [if_pos hbad] at hp
      obtain ⟨hseen, h0, he, q, hq, hpq⟩ := ih seen p hp
      refine ⟨hseen, h0, he, q, ?_, hpq⟩
      rw [List.find?_cons_of_neg, hq]
      simp only [beq_iff_eq]
      intro hc
      rcases hbad with h | h
      · rw [h] at hc; exact h0 hc.symm
      · rw [h] at hc; exact he hc.symm
    · rw [if_neg hbad] at hp
      by_cases hsn : pyStrip ip ∈ seen
      · rw [if_pos hsn] at hp
        obtain ⟨hseen, h0, he, q, hq, hpq⟩ := ih seen p hp
        refine ⟨hseen, h0, he, q, ?_, hpq⟩
        rw [List.find?_cons_of_neg, hq]
        simp only [beq_iff_eq]
        intro hc
        rw [hc] at hsn
        exact hseen hsn
      · rw [if_neg hsn] at hp
        push_neg at hbad
        rcases List.mem_cons.mp hp with hpe | hpr
        · subst hpe
          refine ⟨hsn, hbad.1, hbad.2, (nm, ip), ?_, rfl⟩
          exact List.find?_cons_of_pos rest (by simp)
        · obtain ⟨hseen, h0, he, q, hq, hpq⟩ := ih (pyStrip ip :: seen) p hpr
          have hne : p.2 ≠ pyStrip ip := fun hc =>
            hseen (by rw [hc]; exact List.mem_cons_self _ _)
          refine ⟨fun hc => hseen (List.mem_cons_of_mem _ hc), h0, he, q, ?_, hpq⟩
          rw [List.find?_cons_of_neg, hq]
          simp only [beq_iff_eq]
          intro hc
          exact hne hc.symm

/-- The addresses produced by `normAux` are pairwise distinct. -/
theorem normAux_snd_nodup (raw : List (String × String)) :
    ∀ (seen : List String), ((normAux raw seen).map Prod.snd).Nodup := by
  induction raw with
  | nil => intro seen; simp [normAux]
  | cons hd rest ih =>
    intro seen
    obtain ⟨nm, ip⟩ := hd
    simp only [normAux]
    by_cases hbad : pyStrip ip = ("0.0.0.0") ∨ pyStrip ip = ("")
    · rw [if_pos hbad]; exact ih seen
    · rw [if_neg hbad]
      by_cases hsn : pyStrip ip ∈ seen
      · rw [if_pos hsn]; exact ih seen
      · rw [if_neg hsn]
        simp only [List.map_cons, List.nodup_cons]
        refine ⟨?_, ih (pyStrip ip :: seen)⟩
        intro hc
        rw [List.mem_map] at hc
        obtain ⟨p, hp, hps⟩ := hc
        have := (normAux_mem_spec rest (pyStrip ip :: seen) p hp).1
        rw [hps] at this
        exact this (List.mem_cons_self _ _)

/-- Claim C8: normalization yields pairwise-distinct addresses, none
equal to `0.0.0.0` and none empty, and each retained entry is the
(stripped) first occurrence of its address in the raw input. -/
theorem c8_normalize_dns_list_spec (raw : List (String × String)) :
    ((normalize_dns_list raw).map Prod.snd).Nodup ∧
    ∀ p ∈ normalize_dns_list raw,
      p.2 ≠ ("0.0.0.0") ∧ p.2 ≠ ("") ∧
      ∃ q, raw.find? (fun r => pyStrip r.2 == p.2) = some q ∧
        p = (pyStrip q.1, pyStrip q.2) := by
  refine ⟨normAux_snd_nodup raw [], ?_⟩
  intro p hp
  obtain ⟨_, h0, he, hq⟩ := normAux_mem_spec raw [] p hp
  exact ⟨h0, he, hq⟩

/-- Witness for C8 on a concrete raw catalog with a duplicate address, a
padded address, and an unspecified address. -/
theorem c8_normalize_dns_list_spec_witness :
    ((normalize_dns_list
        [(("A"), (" 1.1.1.1")), (("B"), ("1.1.1.1")), (("C"), ("0.0.0.0"))]).map
        Prod.snd).Nodup ∧
    ((("A"), ("1.1.1.1")) : String × String).2 ≠ ("0.0.0.0") ∧
    ((("A"), ("1.1.1.1")) : String × String).2 ≠ ("") ∧
    ∃ q,
      ([(("A"), (" 1.1.1.1")), (("B"), ("1.1.1.1")), (("C"), ("0.0.0.0"))].find?
        (fun r => pyStrip r.2 == ((("A"), ("1.1.1.1")) : String × String).2)) = some q ∧
      ((("A"), ("1.1.1.1")) : String × String) = (pyStrip q.1, pyStrip q.2) := by
  refine ⟨(c8_normalize_dns_list_spec _).1, ?_⟩
  exact (c8_normalize_dns_list_spec
    [(("A"), (" 1.1.1.1")), (("B"), ("1.1.1.1")), (("C"), ("0.0.0.0"))]).2
    ((("A"), ("1.1.1.1"))) (by decide)

/-! ### Selector (`pickBest`) -/

/-- Head of an ordered insert: the inserted element when it compares at
or below the old head, the old head otherwise. -/
theorem orderedInsert_head? (a : ScoreEntry) (s : List ScoreEntry) :
    (List.orderedInsert (fun x y => x.score ≤ y.score) a s).head? =
      some (match s.head? with
        | none => a
        | some b => if a.score ≤ b.score then a else b) := by
  cases s with
  | nil => rfl
  | cons b t =>
    simp only [List.orderedInsert, List.head?_cons]
    by_cases h : a.score ≤ b.score
    · rw [if_pos h, if_pos h, List.head?_cons]
    · rw [if_neg h, if_neg h, List.head?_cons]

/-- The head of the stable sort is the earliest minimum-score element. -/
theorem pickBest_eq_firstMin (l : List ScoreEntry) :
    pickBest l = firstMin l := by
  induction l with
  | nil => rfl
  | cons e rest ih =>
    rw [pickBest, List.insertionSort, orderedInsert_head?]
    rw [pickBest] at ih
    rw [ih, firstMin]
    cases hr : firstMin rest with
    | none => rfl
    | some b =>
      simp only
      by_cases hc : e.score ≤ b.score
      · rw [if_pos hc, if_neg (not_lt.mpr hc)]
      · rw [if_neg hc, if_pos (lt_of_not_ge hc)]

/-- `firstMin` never returns `none` on a non-empty list. -/
theorem firstMin_ne_none (l : List ScoreEntry) (h : l ≠ []) :
    firstMin l ≠ none := by
  cases l with
  | nil => exact absurd rfl h
  | cons e rest =>
    rw [firstMin]
    cases firstMin rest with
    | none => simp
    | some b => by_cases hc : b.score < e.score <;> simp [hc]

/-- The element `firstMin` returns attains the minimum score and every
element before it in the list has a strictly larger score. -/
theorem firstMin_some_spec (l : List ScoreEntry) :
    ∀ (e : ScoreEntry), firstMin l = some e →
      ∃ l1 l2, l = l1 ++ e :: l2 ∧ (∀ x ∈ l, e.score ≤ x.score) ∧
        ∀ x ∈ l1, e.score < x.score := by
  induction l with
  | nil => intro e h; simp [firstMin] at h
  | cons a rest ih =>
    intro e h
    rw [firstMin] at h
    cases hr : firstMin rest with
    | none =>
      rw [hr] at h
      simp only [Option.some.injEq] at h
      subst h
      have hrest : rest = [] := by
        cases rest with
        | nil => rfl
        | cons c t =>
          exfalso
          exact firstMin_ne_none (c :: t) (by simp) hr
      subst hrest
      exact ⟨[], [], rfl, by simp, by simp⟩
    | some b =>
      rw [hr] at h
      dsimp only at h
      obtain ⟨l1, l2, heq, hmin, hstrict⟩ := ih b hr
      by_cases hc : b.score < a.score
      · rw [if_pos hc, Option.some.injEq] at h
        subst h
        refine ⟨a :: l1, l2, by rw [heq, List.cons_append], ?_, ?_⟩
        · intro x hx
          rcases List.mem_cons.mp hx with hxa | hxr
          · rw [hxa]; exact le_of_lt hc
          · exact hmin x hxr
        · intro x hx
          rcases List.mem_cons.mp hx with hxa | hxl
          · rw [hxa]; exact hc
          · exact hstrict x hxl
      · rw [if_neg hc, Option.some.injEq] at h
        subst h
        refine ⟨[], rest, rfl, ?_, by simp⟩
        intro x hx
        rcases List.mem_cons.mp hx with hxa | hxr
        · rw [hxa]
        · exact le_trans (not_lt.mp hc) (hmin x hxr)


/-- Claim C1: on a non-empty ranked result set the scan selects the
element with the minimum aggregate score, and on an exact tie the one
appearing earlier in scan order (everything before the selected element
scores strictly higher); on an empty ranked set the scan reports failure
and selects nothing. -/
theorem c1_scan_selects_first_minimum (probe2 : String → String → Option ℚ)
    (env : ApplyEnv) (lst : List (String × String)) :
    (scan_results probe2 lst = [] →
      scan_and_apply_best_dns true probe2 env lst = (false, none)) ∧
    (scan_results probe2 lst ≠ [] →
      ∃ e l1 l2, (scan_and_apply_best_dns true probe2 env lst).2 = some e ∧
        scan_results probe2 lst = l1 ++ e :: l2 ∧
        (∀ x ∈ scan_results probe2 lst, e.score ≤ x.score) ∧
        ∀ x ∈ l1, e.score < x.score) := by
  constructor
  · intro h
    rw [scan_and_apply_best_dns, h]
    rfl
  · intro h
    cases hb : pickBest (scan_results probe2 lst) with
    | none =>
      exfalso
      rw [pickBest_eq_firstMin] at hb
      exact firstMin_ne_none _ h hb
    | some e =>
      have hfm : firstMin (scan_results probe2 lst) = some e := by
        rw [← pickBest_eq_firstMin]; exact hb
      obtain ⟨l1, l2, heq, hmin, hstrict⟩ := firstMin_some_spec _ e hfm
      refine ⟨e, l1, l2, ?_, heq, hmin, hstrict⟩
      rw [scan_and_apply_best_dns]
      simp only [not_true_eq_false, if_false, hb]

/-- Witness for C1: with a probe oracle refusing every candidate the
scan reports failure and selects nothing, and with one live candidate
the scan selects it as the minimum. -/
theorem c1_scan_selects_first_minimum_witness :
    scan_and_apply_best_dns true (fun _ _ => (none : Option ℚ))
      (⟨true, true, true, (""), ("eth0"), false, (""), false, true, ("")⟩)
      [(("A"), ("10.0.0.1"))] = (false, none) ∧
    ∃ e l1 l2,
      (scan_and_apply_best_dns true (fun _ _ => some (10 : ℚ))
        (⟨true, true, true, (""), ("eth0"), false, (""), false, true, ("")⟩)
        [(("A"), ("10.0.0.1"))]).2 = some e ∧
      scan_results (fun _ _ => some (10 : ℚ)) [(("A"), ("10.0.0.1"))]
        = l1 ++ e :: l2 ∧
      (∀ x ∈ scan_results (fun _ _ => some (10 : ℚ)) [(("A"), ("10.0.0.1"))],
        e.score ≤ x.score) ∧
      ∀ x ∈ l1, e.score < x.score := by
  constructor
  · exact (c1_scan_selects_first_minimum (fun _ _ => none) _ _).1 rfl
  · refine (c1_scan_selects_first_minimum (fun _ _ => some 10) _ _).2 ?_
    norm_num [scan_results, score_dns, score_dns_t, pyRound1, roundHalfEven]
    simp

/-! ### Relay driver (`SocatManager`) -/

/-- Claim C5: creating a forward on a port that is not yet forwarded but
on which some host process already listens fails with a conflict outcome
that names the owning process when it can be determined (and says
`unknown process` otherwise), and leaves the configured forwarded-port
set unchanged. -/
theorem c5_create_forward_conflict (env : SocatEnv) (cfg : TunnelConfig)
    (port : Int) (hsoc : env.socat_installed = true)
    (hip : cfg.remote_forward_ip ≠ (""))
    (hmem : port ∉ cfg.forwarded_ports)
    (hlis : env.listening port = true) :
    (create_forward env (some cfg) port).1.1 = false ∧
    (create_forward env (some cfg) port).2 = some cfg ∧
    (∀ p, get_port_process env port = some p →
      (create_forward env (some cfg) port).1.2 =
        "Port " ++ toString port ++ " is already in use by: " ++ p) ∧
    (get_port_process env port = none →
      (create_forward env (some cfg) port).1.2 =
        "Port " ++ toString port ++ " is already in use by: "
          ++ ("unknown process")) := by
  have hcf : create_forward env (some cfg) port =
      ((false, "Port " ++ toString port ++ " is already in use by: "
        ++ ((get_port_process env port).getD ("unknown process"))),
       some cfg) := by
    simp [create_forward, start_forward, hmem, hip, hsoc, hlis]
  refine ⟨by rw [hcf], by rw [hcf], ?_, ?_⟩
  · intro p hp
    rw [hcf]
    simp only [hp, Option.getD_some]
  · intro hp
    rw [hcf]
    simp only [hp, Option.getD_none]

/-- Witness for C5: port 8080, free in the configuration, already bound
by an nginx process on the host. -/
theorem c5_create_forward_conflict_witness :
    (create_forward
      (⟨true, fun _ => true, fun _ => some ("123"), fun _ => ("nginx"),
        true, (""), fun _ => true, fun _ => false⟩)
      (some (⟨("10.0.0.5"), [80]⟩)) 8080).1.1 = false ∧
    (create_forward
      (⟨true, fun _ => true, fun _ => some ("123"), fun _ => ("nginx"),
        true, (""), fun _ => true, fun _ => false⟩)
      (some (⟨("10.0.0.5"), [80]⟩)) 8080).2 = some (⟨("10.0.0.5"), [80]⟩) ∧
    (create_forward
      (⟨true, fun _ => true, fun _ => some ("123"), fun _ => ("nginx"),
        true, (""), fun _ => true, fun _ => false⟩)
      (some (⟨("10.0.0.5"), [80]⟩)) 8080).1.2 =
      "Port " ++ toString (8080 : Int) ++ " is already in use by: "
        ++ ("nginx (PID: 123)") := by
  have h := c5_create_forward_conflict
    (⟨true, fun _ => true, fun _ => some ("123"), fun _ => ("nginx"),
      true, (""), fun _ => true, fun _ => false⟩)
    (⟨("10.0.0.5"), [80]⟩) 8080 rfl (by decide) (by decide) rfl
  exact ⟨h.1, h.2.1, h.2.2.1 ("nginx (PID: 123)") rfl⟩

/-- Claim C6: creating a forward on a port already present in the
configured forwarded set returns the already-forwarded conflict outcome
and leaves the entry count for that port unchanged (exactly one under
the no-duplicates invariant); removing a port that is not present
returns the not-forwarded outcome and leaves the configuration
unchanged. -/
theorem c6_duplicate_add_and_absent_remove (env : SocatEnv)
    (cfg : TunnelConfig) (port : Int) :
    (port ∈ cfg.forwarded_ports →
      create_forward env (some cfg) port =
        ((false, "Port " ++ toString port ++ " already in forwarded list"),
         some cfg) ∧
      (cfg.forwarded_ports.count port = 1 →
        ((create_forward env (some cfg) port).2.map
          fun c => c.forwarded_ports.count port) = some 1)) ∧
    (port ∉ cfg.forwarded_ports →
      remove_forward env (some cfg) port =
        ((false, "Port " ++ toString port ++ " is not in forwarded list"),
         some cfg)) := by
  constructor
  · intro hmem
    have hcf : create_forward env (some cfg) port =
        ((false, "Port " ++ toString port ++ " already in forwarded list"),
         some cfg) := by
      simp [create_forward, hmem]
    refine ⟨hcf, ?_⟩
    intro hcount
    rw [hcf]
    simp [hcount]
  · intro hmem
    simp [remove_forward, hmem]

/-- Witness for C6: adding port 80 twice to a configuration that already
holds it, and removing the absent port 81. -/
theorem c6_duplicate_add_and_absent_remove_witness :
    (create_forward
      (⟨true, fun _ => false, fun _ => none, fun _ => (""), true, (""),
        fun _ => true, fun _ => false⟩)
      (some (⟨("10.0.0.5"), [80]⟩)) 80 =
      ((false, "Port " ++ toString (80 : Int) ++ " already in forwarded list"),
       some (⟨("10.0.0.5"), [80]⟩)) ∧
     ((create_forward
        (⟨true, fun _ => false, fun _ => none, fun _ => (""), true, (""),
          fun _ => true, fun _ => false⟩)
        (some (⟨("10.0.0.5"), [80]⟩)) 80).2.map
          fun c => c.forwarded_ports.count 80) = some 1) ∧
    remove_forward
      (⟨true, fun _ => false, fun _ => none, fun _ => (""), true, (""),
        fun _ => true, fun _ => false⟩)
      (some (⟨("10.0.0.5"), [80]⟩)) 81 =
      ((false, "Port " ++ toString (81 : Int) ++ " is not in forwarded list"),
       some (⟨("10.0.0.5"), [80]⟩)) := by
  constructor
  · have h := (c6_duplicate_add_and_absent_remove
      (⟨true, fun _ => false, fun _ => none, fun _ => (""), true, (""),
        fun _ => true, fun _ => false⟩)
      (⟨("10.0.0.5"), [80]⟩) 80).1 (by decide)
    exact ⟨h.1, h.2 (by decide)⟩
  · exact (c6_duplicate_add_and_absent_remove
      (⟨true, fun _ => false, fun _ => none, fun _ => (""), true, (""),
        fun _ => true, fun _ => false⟩)
      (⟨("10.0.0.5"), [80]⟩) 81).2 (by decide)

/-- Claim C9: removing a configured port whose live forwarder has
already stopped (the port is no longer listening) succeeds: the
underlying stop reports success on the already-stopped forward and the
port is removed from the configured set. -/
theorem c9_remove_stopped_forward (env : SocatEnv) (cfg : TunnelConfig)
    (port : Int) (hmem : port ∈ cfg.forwarded_ports)
    (hlis : env.listening port = false) :
    stop_forward env port =
      (true, "Port " ++ toString port ++ " is not being forwarded") ∧
    remove_forward env (some cfg) port =
      ((true, "Port forward " ++ toString port ++ " removed"),
       some (cfg.remove_port port)) ∧
    port ∉ (cfg.remove_port port).forwarded_ports := by
  have hsf : stop_forward env port =
      (true, "Port " ++ toString port ++ " is not being forwarded") := by
    simp [stop_forward, hlis]
  refine ⟨hsf, ?_, ?_⟩
  · simp [remove_forward, hmem, hsf]
  · simp [TunnelConfig.remove_port, List.mem_filter]

/-- Witness for C9: removing configured port 80 while nothing listens on
it any more. -/
theorem c9_remove_stopped_forward_witness :
    stop_forward
      (⟨true, fun _ => false, fun _ => none, fun _ => (""), true, (""),
        fun _ => true, fun _ => false⟩) 80 =
      (true, "Port " ++ toString (80 : Int) ++ " is not being forwarded") ∧
    remove_forward
      (⟨true, fun _ => false, fun _ => none, fun _ => (""), true, (""),
        fun _ => true, fun _ => false⟩)
      (some (⟨("10.0.0.5"), [80]⟩)) 80 =
      ((true, "Port forward " ++ toString (80 : Int) ++ " removed"),
       some ((⟨("10.0.0.5"), [80]⟩ : TunnelConfig).remove_port 80)) ∧
    (80 : Int) ∉
      ((⟨("10.0.0.5"), [80]⟩ : TunnelConfig).remove_port 80).forwarded_ports :=
  c9_remove_stopped_forward
    (⟨true, fun _ => false, fun _ => none, fun _ => (""), true, (""),
      fun _ => true, fun _ => false⟩)
    (⟨("10.0.0.5"), [80]⟩) 80 (by decide) rfl

/-- The add loop produces one message per parsed port. -/
theorem addLoop_length (env : SocatEnv) (ports : List Int) :
    ∀ (cfg? : Option TunnelConfig),
      (addLoop env ports cfg?).1.length = ports.length := by
  induction ports with
  | nil => intro cfg?; rfl
  | cons port rest ih =>
    intro cfg?
    rw [addLoop]
    simp only [List.length_cons, ih]

/-- `remove_forward` never discards the configuration object. -/
theorem remove_forward_keeps_config (env : SocatEnv) (cfg : TunnelConfig)
    (port : Int) :
    ∃ cfg2, (remove_forward env (some cfg) port).2 = some cfg2 := by
  rw [remove_forward]
  by_cases hmem : port ∈ cfg.forwarded_ports
  · rw [if_neg (fun hc => hc hmem)]
    by_cases hst : (stop_forward env port).1
    · exact ⟨cfg.remove_port port, by simp [hst]⟩
    · exact ⟨cfg, by simp [hst]⟩
  · exact ⟨cfg, by simp [hmem]⟩

/-- With a configuration present, the remove loop never raises. -/
theorem removeLoop_ok (env : SocatEnv) (ports : List Int) :
    ∀ (cfg : TunnelConfig),
      ∃ t, removeLoop env ports (some cfg) = Except.ok t := by
  induction ports with
  | nil => intro cfg; exact ⟨([], some cfg), rfl⟩
  | cons port rest ih =>
    intro cfg
    rw [removeLoop]
    by_cases hmem : port ∈ cfg.forwarded_ports
    · rw [if_pos hmem]
      obtain ⟨cfg2, hcfg2⟩ := remove_forward_keeps_config env cfg port
      dsimp only
      rw [hcfg2]
      obtain ⟨t, ht⟩ := ih cfg2
      rw [ht]
      exact ⟨_, rfl⟩
    · rw [if_neg hmem]
      exact ih cfg

/-- Claim C10: any ports string that parses makes the bulk helpers
return an overall success outcome with one joined message per attempted
port, regardless of how many per-port operations failed; only a ports
string that fails to parse yields an overall failure outcome. -/
theorem c10_bulk_forwards_always_succeed (env : SocatEnv)
    (cfg? : Option TunnelConfig) (s : String) :
    (∀ ports, parse_ports s = some ports →
      (add_multiple_forwards env cfg? s).1.1 = true ∧
      ∃ msgs, (add_multiple_forwards env cfg? s).1.2 =
          String.intercalate ("\n") msgs ∧
        msgs.length = ports.length) ∧
    (∀ cfg ports, cfg? = some cfg → parse_ports s = some ports →
      ∃ t, remove_multiple_forwards env cfg? s = Except.ok t ∧
        t.1.1 = true) ∧
    (parse_ports s = none →
      add_multiple_forwards env cfg? s = ((false, "Invalid port format"), cfg?) ∧
      remove_multiple_forwards env cfg? s =
        Except.ok ((false, "Invalid port format"), cfg?)) := by
  refine ⟨?_, ?_, ?_⟩
  · intro ports hp
    rw [add_multiple_forwards, hp]
    exact ⟨rfl, (addLoop env ports cfg?).1, rfl, addLoop_length env ports cfg?⟩
  · intro cfg ports hcfg hp
    subst hcfg
    rw [remove_multiple_forwards, hp]
    obtain ⟨t, ht⟩ := removeLoop_ok env ports cfg
    dsimp only
    rw [ht]
    exact ⟨_, rfl, rfl⟩
  · intro hp
    rw [add_multiple_forwards, remove_multiple_forwards, hp]
    exact ⟨rfl, rfl⟩

/-- Witness for C10: the string `5,6` parses, every per-port create
fails (no remote IP configured) yet the bulk add reports success; the
bulk remove also reports success; the string `x` fails to parse. -/
theorem c10_bulk_forwards_always_succeed_witness :
    ((add_multiple_forwards
        (⟨true, fun _ => false, fun _ => none, fun _ => (""), true, (""),
          fun _ => true, fun _ => false⟩)
        (some (⟨(""), [5]⟩)) ("5,6")).1.1 = true ∧
      ∃ msgs, (add_multiple_forwards
          (⟨true, fun _ => false, fun _ => none, fun _ => (""), true, (""),
            fun _ => true, fun _ => false⟩)
          (some (⟨(""), [5]⟩)) ("5,6")).1.2 =
            String.intercalate ("\n") msgs ∧
        msgs.length = ([5, 6] : List Int).length) ∧
    (∃ t, remove_multiple_forwards
        (⟨true, fun _ => false, fun _ => none, fun _ => (""), true, (""),
          fun _ => true, fun _ => false⟩)
        (some (⟨(""), [5]⟩)) ("5,6") = Except.ok t ∧ t.1.1 = true) ∧
    (add_multiple_forwards
        (⟨true, fun _ => false, fun _ => none, fun _ => (""), true, (""),
          fun _ => true, fun _ => false⟩)
        (some (⟨(""), [5]⟩)) ("x") =
      ((false, "Invalid port format"), some (⟨(""), [5]⟩))) := by
  refine ⟨?_, ?_, ?_⟩
  · exact (c10_bulk_forwards_always_succeed
      (⟨true, fun _ => false, fun _ => none, fun _ => (""), true, (""),
        fun _ => true, fun _ => false⟩)
      (some (⟨(""), [5]⟩)) ("5,6")).1 [5, 6] (by decide)
  · exact (c10_bulk_forwards_always_succeed
      (⟨true, fun _ => false, fun _ => none, fun _ => (""), true, (""),
        fun _ => true, fun _ => false⟩)
      (some (⟨(""), [5]⟩)) ("5,6")).2.1 (⟨(""), [5]⟩) [5, 6] rfl (by decide)
  · exact ((c10_bulk_forwards_always_succeed
      (⟨true, fun _ => false, fun _ => none, fun _ => (""), true, (""),
        fun _ => true, fun _ => false⟩)
      (some (⟨(""), [5]⟩)) ("x")).2.2 (by decide)).1

/-! ### Applier (`apply_dns`) -/

/-- Counterexample to Claim C2: with resolvectl present, systemd-resolved
active, and the `resolvectl dns` command failing, `apply_dns` reports
failure immediately; the connection-manager mechanism and the file
fallback — both of which would succeed in this environment — are never
attempted, so failure is reported without exhausting all three
mechanisms. -/
theorem c2_apply_dns_counterexample :
    (apply_dns
      (⟨true, true, false, ("boom"), ("eth0"), true, ("wan:eth0"), true,
        true, ("")⟩) ("1.1.1.1")).1.1 = false ∧
    Mech.nmcli ∉ (apply_dns
      (⟨true, true, false, ("boom"), ("eth0"), true, ("wan:eth0"), true,
        true, ("")⟩) ("1.1.1.1")).2 ∧
    Mech.resolvconf ∉ (apply_dns
      (⟨true, true, false, ("boom"), ("eth0"), true, ("wan:eth0"), true,
        true, ("")⟩) ("1.1.1.1")).2 ∧
    (ApplyEnv.has_nmcli
      (⟨true, true, false, ("boom"), ("eth0"), true, ("wan:eth0"), true,
        true, ("")⟩) = true ∧
     ApplyEnv.nmcli_modify_ok
      (⟨true, true, false, ("boom"), ("eth0"), true, ("wan:eth0"), true,
        true, ("")⟩) = true ∧
     ApplyEnv.resolv_write_ok
      (⟨true, true, false, ("boom"), ("eth0"), true, ("wan:eth0"), true,
        true, ("")⟩) = true) := by
  refine ⟨rfl, ?_, ?_, rfl, rfl, rfl⟩ <;> decide

/-- Claim C2 as amended: `apply_dns` attempts the mechanisms in strict
order resolvectl → nmcli → resolv.conf, each apply command issued only
after its precondition holds, and a precondition failure (or, within the
nmcli mechanism, a missing active connection or a failed modify)
advances to the next mechanism; however a non-zero exit of the
`resolvectl dns` command reports failure immediately without attempting
the remaining mechanisms, so failure is reported exactly when that
command fails or when every mechanism up to and including the final file
write has been exhausted. -/
theorem c2_apply_dns_order_amended (env : ApplyEnv) (ip : String) :
    (apply_dns env ip).2.Sublist [Mech.resolvectl, Mech.nmcli, Mech.resolvconf] ∧
    (Mech.resolvectl ∈ (apply_dns env ip).2 ↔
      env.has_resolvectl = true ∧ env.resolved_active = true) ∧
    (Mech.nmcli ∈ (apply_dns env ip).2 ↔
      ¬(env.has_resolvectl = true ∧ env.resolved_active = true) ∧
      env.has_nmcli = true ∧ pyStrip env.nmcli_active_line ≠ ("")) ∧
    (Mech.resolvconf ∈ (apply_dns env ip).2 ↔
      ¬(env.has_resolvectl = true ∧ env.resolved_active = true) ∧
      ¬(env.has_nmcli = true ∧ pyStrip env.nmcli_active_line ≠ ("") ∧
        env.nmcli_modify_ok = true)) ∧
    ((apply_dns env ip).1.1 = false ↔
      (env.has_resolvectl = true ∧ env.resolved_active = true ∧
        env.resolvectl_dns_ok = false) ∨
      (¬(env.has_resolvectl = true ∧ env.resolved_active = true) ∧
        ¬(env.has_nmcli = true ∧ pyStrip env.nmcli_active_line ≠ ("") ∧
          env.nmcli_modify_ok = true) ∧
        env.resolv_write_ok = false)) := by
  obtain ⟨hr, ha, hd, hs, hi, hn, hl, hm, hw, he⟩ := env
  cases hr <;> cases ha <;> cases hd <;> cases hn <;> cases hm <;> cases hw <;>
    by_cases hline : pyStrip hl = ("") <;>
    simp [apply_dns, apply_dns_fallback, hline]

/-! ### Mode switching (`main.py`) -/

/-- Claim C4 at its failing input: in the EasyTier forwards menu,
switching the forward mode from socat to haproxy persists the new mode
and restarts the daemon without issuing any stop action for the running
socat forwarders (while the claim requires the old driver to be bulk
stopped before the new mode is persisted).  Switching to the already
current mode issues no action in either menu. -/
theorem c4_easytier_switch_leaves_socat_running :
    easytier_forwards_menu_mode_switch FwdMode.socat ("2") =
      [Action.setMode FwdMode.haproxy, Action.startHaproxyService,
       Action.restartDaemonService] ∧
    Action.stopAllSocat ∉ easytier_forwards_menu_mode_switch FwdMode.socat ("2") ∧
    forwards_menu_mode_switch FwdMode.socat ("2") true =
      [Action.stopAllSocat, Action.setMode FwdMode.haproxy,
       Action.startHaproxyService, Action.restartDaemonService] ∧
    easytier_forwards_menu_mode_switch FwdMode.socat ("3") = [] ∧
    forwards_menu_mode_switch FwdMode.socat ("3") true = [] := by
  refine ⟨?_, ?_, ?_, ?_, ?_⟩ <;> decide

end VortexL2
